import Mathlib

/-!
Verification development for the nanobanana-mcp-server repository.

The repository is a TypeScript MCP server that forwards image generation
and editing requests to the Gemini REST API.  The definitions below are a
shallow embedding of the source files:

  - src/services/gemini-client.ts : getMimeTypeFromPath, getApiKey,
    makeGeminiRequest, generateImage, editImage, handleApiError
  - src/types.ts                  : the Gemini request/response data model
  - src/constants.ts              : API constants and model identifiers
  - src/schemas/index.ts          : the zod input schemas of the tools

Effectful boundaries (process environment, the axios HTTP call, the
filesystem read) are modelled as explicit oracle arguments; a thrown
JavaScript exception is modelled by the Except monad.  Node Buffer base64
encoding is external library code: the filesystem oracle therefore yields
the base64 rendering of the file contents directly.
-/

namespace NanoBanana

/-- From src/types.ts, GeneratedImage: mimeType plus base64 data. -/
structure GeneratedImage where
  mimeType : String
  data : String
deriving DecidableEq

/-- The payload of a GeminiInlineDataPart from src/types.ts. -/
structure GeminiInlineData where
  mimeType : String
  data : String
deriving DecidableEq

/-- A runtime content part.  src/types.ts declares the tagged union
GeminiPart = GeminiTextPart or GeminiInlineDataPart, but the values come
from JSON, so at runtime either field may be present or absent
independently; the client discriminates with the JavaScript in operator.
Field presence is modelled with Option. -/
structure GeminiPart where
  text : Option String
  inlineData : Option GeminiInlineData
deriving DecidableEq

/-- From src/types.ts, GeminiContent: optional role plus ordered parts. -/
structure GeminiContent where
  role : Option String
  parts : List GeminiPart
deriving DecidableEq

/-- From src/types.ts, GenerationConfig. -/
structure GenerationConfig where
  responseModalities : Option (List String)
  responseMimeType : Option String
deriving DecidableEq

/-- From src/types.ts, GeminiRequest. -/
structure GeminiRequest where
  contents : List GeminiContent
  generationConfig : Option GenerationConfig
deriving DecidableEq

/-- From src/types.ts, GeminiCandidate. -/
structure GeminiCandidate where
  content : GeminiContent
  finishReason : String
  index : Nat
deriving DecidableEq

/-- From src/types.ts, usageMetadata of a GeminiResponse. -/
structure UsageMetadata where
  promptTokenCount : Nat
  candidatesTokenCount : Nat
  totalTokenCount : Nat
deriving DecidableEq

/-- From src/types.ts, GeminiResponse.  The candidates field is typed as
required in TypeScript but the client guards !response.candidates, so at
runtime it may be absent: it is modelled as an Option. -/
structure GeminiResponse where
  candidates : Option (List GeminiCandidate)
  usageMetadata : Option UsageMetadata
  modelVersion : Option String
deriving DecidableEq

/-- From src/types.ts, ImageGenerationResult.  Optional fields of the
TypeScript interface are Options; a field never assigned is none. -/
structure ImageGenerationResult where
  success : Bool
  text : Option String
  image : Option GeneratedImage
  error : Option String
  model : String
  finishReason : Option String
deriving DecidableEq

/-- The data of an axios error response consulted by handleApiError:
response.status and response.data?.error?.message. -/
structure AxiosResponseData where
  status : Nat
  errorMessage : Option String
deriving DecidableEq

/-- A thrown JavaScript failure as discriminated by handleApiError:
an axios error (optional HTTP response, optional error code, message),
a generic Error instance, or a thrown non-Error value rendered by the
String function. -/
inductive JsError where
  | axiosError (response : Option AxiosResponseData) (code : Option String)
      (message : String)
  | jsError (message : String)
  | nonError (rendered : String)
deriving DecidableEq

/-- The JavaScript a-or-else-b idiom (message or fallback): an absent or
empty string is falsy and selects the fallback. -/
def jsOr (m : Option String) (fallback : String) : String :=
  match m with
  | some s => if s = "" then fallback else s
  | none => fallback

/-- From src/constants.ts. -/
def API_BASE_URL : String := "https://generativelanguage.googleapis.com/v1beta"

/-- From src/constants.ts: timeout in milliseconds. -/
def API_TIMEOUT : Nat := 60000

/-- From src/constants.ts, GEMINI_MODELS.FLASH. -/
def GEMINI_MODELS_FLASH : String := "gemini-2.0-flash-exp-image-generation"

/-- From src/constants.ts, GEMINI_MODELS.PRO. -/
def GEMINI_MODELS_PRO : String := "gemini-2.0-flash-exp"

/-- Model of the Node path.extname (posix) library routine used by
getMimeTypeFromPath.  It scans the path from the right, ignoring trailing
slashes, restricts attention to the final path component, and returns the
substring from the last dot onward, except that a component with no dot, a
component whose only dot is its leading character, and the component ".."
yield the empty string. -/
def extname (p : String) : String :=
  let rev := p.data.reverse.dropWhile (fun c => c == '/')
  let baseRev := rev.takeWhile (fun c => c != '/')
  let afterDot := baseRev.takeWhile (fun c => c != '.')
  if baseRev.length == 0 then ""
  else if afterDot.length == baseRev.length then ""
  else
    let k := baseRev.length - afterDot.length - 1
    if k == 0 then ""
    else if baseRev == ['.', '.'] then ""
    else String.mk ('.' :: afterDot.reverse)

/-- Model of the JavaScript toLowerCase call: Char.toLower applied
characterwise, which agrees with it on every character that could
influence the extension lookup. -/
def jsToLower (s : String) : String := String.mk (s.data.map Char.toLower)

/-- From src/services/gemini-client.ts, getMimeTypeFromPath: lower-case the
extension and look it up in the literal record, defaulting to image/png. -/
def getMimeTypeFromPath (filePath : String) : String :=
  let ext := jsToLower (extname filePath)
  if ext = ".png" then "image/png"
  else if ext = ".jpg" then "image/jpeg"
  else if ext = ".jpeg" then "image/jpeg"
  else if ext = ".webp" then "image/webp"
  else if ext = ".gif" then "image/gif"
  else "image/png"

/-- The message of the Error thrown by getApiKey (two concatenated string
literals in the source). -/
def apiKeyRequiredMsg : String :=
  "GEMINI_API_KEY environment variable is required. Get your API key from https://aistudio.google.com/apikey"

/-- From src/services/gemini-client.ts, getApiKey: reads
process.env.GEMINI_API_KEY (the env argument; an unset variable is none)
and throws when it is falsy, i.e. absent or the empty string. -/
def getApiKey (env : Option String) : Except JsError String :=
  match env with
  | none => .error (.jsError apiKeyRequiredMsg)
  | some apiKey =>
    if apiKey = "" then .error (.jsError apiKeyRequiredMsg) else .ok apiKey

/-- The type of the network oracle standing for axios.post: it receives
the request URL, the API key passed as the key query parameter, and the
JSON request body, and either returns the parsed response or throws. -/
abbrev Net := String → String → GeminiRequest → Except JsError GeminiResponse

/-- From src/services/gemini-client.ts, makeGeminiRequest: resolve the API
key, build the URL from API_BASE_URL and the model, and perform the single
axios.post; the catch block rethrows the error unchanged. -/
def makeGeminiRequest (model : String) (request : GeminiRequest)
    (env : Option String) (net : Net) : Except JsError GeminiResponse :=
  match getApiKey env with
  | .error e => .error e
  | .ok apiKey =>
    net (API_BASE_URL ++ "/models/" ++ model ++ ":generateContent") apiKey request

/-- From src/services/gemini-client.ts, handleApiError: classify a thrown
failure into a single user-facing string. -/
def handleApiError (error : JsError) : String :=
  match error with
  | .axiosError (some r) _ _ =>
    match r.status with
    | 400 => "Error: Invalid request. " ++ jsOr r.errorMessage "Check your prompt and parameters."
    | 401 => "Error: Invalid API key. Please check your GEMINI_API_KEY environment variable."
    | 403 => "Error: Access denied. " ++ jsOr r.errorMessage "Your API key may not have access to this model."
    | 404 => "Error: Model not found. Please check the model name."
    | 429 => "Error: Rate limit exceeded. Please wait before making more requests."
    | 500 => "Error: Gemini API server error. Please try again later."
    | 503 => "Error: Gemini API service unavailable. Please try again later."
    | s => "Error: API request failed with status " ++ toString s ++ ". " ++ jsOr r.errorMessage ""
  | .axiosError none (some "ECONNABORTED") _ =>
    "Error: Request timed out. Image generation can take a while - please try again."
  | .axiosError none (some "ENOTFOUND") _ =>
    "Error: Unable to reach Gemini API. Please check your network connection."
  | .axiosError none _ message => "Error: " ++ message
  | .jsError message => "Error: " ++ message
  | .nonError rendered => "Error: " ++ rendered

/-- The loop body of the part scan shared verbatim by generateImage and
editImage: a part carrying a text field overwrites result.text, otherwise a
part carrying an inlineData field overwrites result.image. -/
def updatePart (result : ImageGenerationResult) (part : GeminiPart) :
    ImageGenerationResult :=
  match part.text with
  | some t => { result with text := some t }
  | none =>
    match part.inlineData with
    | some d => { result with image := some { mimeType := d.mimeType, data := d.data } }
    | none => result

/-- The inline data a part contributes to result.image under the scan:
none when the part also carries a text field (the text branch shadows the
inlineData branch). -/
def scanImage (part : GeminiPart) : Option GeminiInlineData :=
  match part.text with
  | some _ => none
  | none => part.inlineData

/-- Conversion from response inline data to the result image record. -/
def imageOfInline (d : GeminiInlineData) : GeneratedImage :=
  { mimeType := d.mimeType, data := d.data }

/-- Error message of the empty-candidates branch. -/
def noCandidatesMsg : String := "No candidates returned from the API"

/-- Error message of the no-image branch of generateImage. -/
def noImageGenerateMsg : String :=
  "No image was generated. The model may have refused or encountered an issue."

/-- Error message of the no-image branch of editImage. -/
def noImageEditMsg : String :=
  "No edited image was generated. The model may have refused or encountered an issue."

/-- The request literal of generateImage: a single user content with one
text part and responseModalities TEXT and IMAGE. -/
def buildGenerateRequest (prompt : String) : GeminiRequest :=
  { contents := [{ role := none, parts := [{ text := some prompt, inlineData := none }] }],
    generationConfig :=
      some { responseModalities := some ["TEXT", "IMAGE"], responseMimeType := none } }

/-- From src/services/gemini-client.ts, generateImage. -/
def generateImage (prompt model : String) (env : Option String) (net : Net) :
    ImageGenerationResult :=
  match makeGeminiRequest model (buildGenerateRequest prompt) env net with
  | .error e =>
    { success := false, text := none, image := none,
      error := some (handleApiError e), model := model, finishReason := none }
  | .ok response =>
    match response.candidates with
    | none =>
      { success := false, text := none, image := none,
        error := some noCandidatesMsg, model := model, finishReason := none }
    | some [] =>
      { success := false, text := none, image := none,
        error := some noCandidatesMsg, model := model, finishReason := none }
    | some (candidate :: _) =>
      let result := candidate.content.parts.foldl updatePart
        { success := true, text := none, image := none, error := none,
          model := model, finishReason := some candidate.finishReason }
      match result.image with
      | none =>
        { success := false, text := result.text, image := none,
          error := some noImageGenerateMsg, model := model, finishReason := none }
      | some _ => result

/-- The request literal of editImage: one user content holding the prompt
text part followed by the inline image part. -/
def buildEditRequest (prompt imageMimeType imageBase64 : String) : GeminiRequest :=
  let textPart : GeminiPart := { text := some prompt, inlineData := none }
  let imagePart : GeminiPart :=
    { text := none, inlineData := some { mimeType := imageMimeType, data := imageBase64 } }
  { contents := [{ role := none, parts := [textPart, imagePart] }],
    generationConfig :=
      some { responseModalities := some ["TEXT", "IMAGE"], responseMimeType := none } }

/-- From src/services/gemini-client.ts, editImage.  The fs oracle stands
for fs.readFile followed by Buffer.toString with base64 (both external
library code): it yields the base64 rendering of the file at the path, or
the message of the thrown read error. -/
def editImage (prompt imagePath model : String) (env : Option String)
    (fs : String → Except String String) (net : Net) : ImageGenerationResult :=
  match fs imagePath with
  | .error msg =>
    { success := false, text := none, image := none,
      error := some ("Failed to read image file: " ++ msg), model := model,
      finishReason := none }
  | .ok imageBase64 =>
    let imageMimeType := getMimeTypeFromPath imagePath
    match makeGeminiRequest model (buildEditRequest prompt imageMimeType imageBase64)
        env net with
    | .error e =>
      { success := false, text := none, image := none,
        error := some (handleApiError e), model := model, finishReason := none }
    | .ok response =>
      match response.candidates with
      | none =>
        { success := false, text := none, image := none,
          error := some noCandidatesMsg, model := model, finishReason := none }
      | some [] =>
        { success := false, text := none, image := none,
          error := some noCandidatesMsg, model := model, finishReason := none }
      | some (candidate :: _) =>
        let result := candidate.content.parts.foldl updatePart
          { success := true, text := none, image := none, error := none,
            model := model, finishReason := some candidate.finishReason }
        match result.image with
        | none =>
          { success := false, text := result.text, image := none,
            error := some noImageEditMsg, model := model, finishReason := none }
        | some _ => result

/-- A content part populated per the tagged union of src/types.ts: exactly
one of the two fields is present. -/
def WFPart (p : GeminiPart) : Prop :=
  (p.text.isSome ∧ p.inlineData = none) ∨ (p.text = none ∧ p.inlineData.isSome)

instance (p : GeminiPart) : Decidable (WFPart p) := by
  unfold WFPart
  infer_instance

/-- A network oracle that distinguishes the request it receives: it
answers matched exactly when the request equals expected, and other for
every different request.  Used to observe which request a call constructs. -/
def discriminatingNet (expected : GeminiRequest) (matched other : GeminiResponse) : Net :=
  fun _ _ request => if request = expected then .ok matched else .ok other

/-- The raw JSON object supplied to the nanobanana_generate_image tool
before zod validation: each declared key is present or absent, and
unknownKeys lists any undeclared keys. -/
structure RawGenerateImageInput where
  prompt : Option String
  model : Option String
  output_path : Option String
  unknownKeys : List String

/-- The parsed value of GenerateImageSchema from src/schemas/index.ts.
Every field, including output_path, is non-optional in the inferred type. -/
structure GenerateImageInput where
  prompt : String
  model : String
  output_path : String
deriving DecidableEq

/-- From src/schemas/index.ts, GenerateImageSchema: prompt is a required
string of length 1 to 10000; model defaults to GEMINI_MODELS.FLASH and
must be one of the two enum values; output_path is declared as
z.string().min(1) with no .optional(), so an absent key is rejected; and
.strict() rejects unknown keys.  zod aggregates issues; this model reports
the first failed check, which suffices since the claims evaluate inputs
with a single defect. -/
def parseGenerateImageInput (raw : RawGenerateImageInput) :
    Except String GenerateImageInput :=
  match raw.prompt with
  | none => .error "Required"
  | some prompt =>
    if prompt.length < 1 then .error "Prompt is required"
    else if prompt.length > 10000 then .error "Prompt must not exceed 10000 characters"
    else
      let model := raw.model.getD GEMINI_MODELS_FLASH
      if model = GEMINI_MODELS_FLASH ∨ model = GEMINI_MODELS_PRO then
        match raw.output_path with
        | none => .error "Required"
        | some output_path =>
          if output_path.length < 1 then .error "Output path is required"
          else if raw.unknownKeys = [] then .ok ⟨prompt, model, output_path⟩
          else .error "Unrecognized key in object"
      else .error "Invalid enum value"

/-- The raw JSON object supplied to the nanobanana_edit_image tool before
zod validation. -/
structure RawEditImageInput where
  prompt : Option String
  image_path : Option String
  model : Option String
  output_path : Option String
  unknownKeys : List String

/-- The parsed value of EditImageSchema from src/schemas/index.ts. -/
structure EditImageInput where
  prompt : String
  image_path : String
  model : String
  output_path : String
deriving DecidableEq

/-- From src/schemas/index.ts, EditImageSchema: like GenerateImageSchema
plus a required image_path of length at least 1; output_path is again
declared without .optional(). -/
def parseEditImageInput (raw : RawEditImageInput) : Except String EditImageInput :=
  match raw.prompt with
  | none => .error "Required"
  | some prompt =>
    if prompt.length < 1 then .error "Prompt is required"
    else if prompt.length > 10000 then .error "Prompt must not exceed 10000 characters"
    else
      match raw.image_path with
      | none => .error "Required"
      | some image_path =>
        if image_path.length < 1 then .error "Image path is required"
        else
          let model := raw.model.getD GEMINI_MODELS_FLASH
          if model = GEMINI_MODELS_FLASH ∨ model = GEMINI_MODELS_PRO then
            match raw.output_path with
            | none => .error "Required"
            | some output_path =>
              if output_path.length < 1 then .error "Output path is required"
              else if raw.unknownKeys = [] then
                .ok ⟨prompt, image_path, model, output_path⟩
              else .error "Unrecognized key in object"
          else .error "Invalid enum value"

theorem or_some_left {α : Type} (a : α) (o : Option α) : (some a).or o = some a := rfl

theorem or_none_left {α : Type} (o : Option α) : Option.or none o = o := rfl

/-- Characterization of the part scan of generateImage and editImage: the
fold keeps success, error, model and finishReason of the initial record,
text becomes the last text field of the parts (if any), and image becomes
the image of the last part whose inlineData branch fires (if any). -/
theorem foldl_updatePart_eq (parts : List GeminiPart) (acc : ImageGenerationResult) :
    parts.foldl updatePart acc =
      { success := acc.success,
        text := ((parts.filterMap GeminiPart.text).getLast?).or acc.text,
        image := (((parts.filterMap scanImage).getLast?).map imageOfInline).or acc.image,
        error := acc.error, model := acc.model, finishReason := acc.finishReason } := by
  induction parts using List.reverseRecOn with
  | nil => simp [or_none_left]
  | append_singleton l p ih =>
    rw [List.foldl_append]
    rcases p with ⟨pt, pd⟩
    cases pt <;> cases pd <;>
      simp [updatePart, scanImage, imageOfInline, List.filterMap_append, ih,
        List.getLast?_concat, or_some_left]

/-- Claim C1: for every result returned by generateImage or editImage,
over all environments, filesystem outcomes and network outcomes, success
is true exactly when the image field is present; in particular a result
carrying text but no image has success false. -/
theorem c1_success_iff_image_present :
    (∀ (prompt model : String) (env : Option String) (net : Net),
      (generateImage prompt model env net).success = true ↔
        ((generateImage prompt model env net).image).isSome = true) ∧
    (∀ (prompt imagePath model : String) (env : Option String)
      (fs : String → Except String String) (net : Net),
      (editImage prompt imagePath model env fs net).success = true ↔
        ((editImage prompt imagePath model env fs net).image).isSome = true) := by
  constructor
  · intro prompt model env net
    unfold generateImage
    rcases makeGeminiRequest model (buildGenerateRequest prompt) env net with e | resp
    · simp
    · rcases resp with ⟨cands, um, mv⟩
      rcases cands with _ | cl
      · simp
      rcases cl with _ | ⟨c, cs⟩
      · simp
      simp only [foldl_updatePart_eq]
      cases h : ((c.content.parts.filterMap scanImage).getLast?.map imageOfInline).or none with
      | none => simp [h]
      | some img => simp [h]
  · intro prompt imagePath model env fs net
    unfold editImage
    rcases fs imagePath with msg | b64
    · simp
    dsimp only
    rcases makeGeminiRequest model
        (buildEditRequest prompt (getMimeTypeFromPath imagePath) b64) env net with e | resp
    · simp
    rcases resp with ⟨cands, um, mv⟩
    rcases cands with _ | cl
    · simp
    rcases cl with _ | ⟨c, cs⟩
    · simp
    simp only [foldl_updatePart_eq]
    cases h : ((c.content.parts.filterMap scanImage).getLast?.map imageOfInline).or none with
    | none => simp [h]
    | some img => simp [h]

/-- Claim C10: a content part carrying both a text field and an inlineData
field is treated solely as a text part by the extractor of generateImage
and editImage: the scan step overwrites only result.text, and end to end a
response whose single part carries both fields yields text with no image
(hence the no-image failure), because the text branch is checked first and
the inlineData branch is an else-if. -/
theorem c10_both_fields_part_is_text_part :
    (∀ (acc : ImageGenerationResult) (t : String) (d : GeminiInlineData),
      updatePart acc { text := some t, inlineData := some d } = { acc with text := some t }) ∧
    (∀ (prompt model t : String) (d : GeminiInlineData) (fr : String) (idx : Nat)
      (role : Option String) (um : Option UsageMetadata) (mv : Option String),
      generateImage prompt model (some "k")
        (fun _ _ _ => .ok ⟨some [⟨⟨role, [⟨some t, some d⟩]⟩, fr, idx⟩], um, mv⟩) =
        { success := false, text := some t, image := none,
          error := some noImageGenerateMsg, model := model, finishReason := none }) ∧
    (∀ (prompt imagePath model b64 t : String) (d : GeminiInlineData) (fr : String)
      (idx : Nat) (role : Option String) (um : Option UsageMetadata) (mv : Option String),
      editImage prompt imagePath model (some "k") (fun _ => .ok b64)
        (fun _ _ _ => .ok ⟨some [⟨⟨role, [⟨some t, some d⟩]⟩, fr, idx⟩], um, mv⟩) =
        { success := false, text := some t, image := none,
          error := some noImageEditMsg, model := model, finishReason := none }) := by
  refine ⟨fun acc t d => rfl, fun prompt model t d fr idx role um mv => ?_,
    fun prompt imagePath model b64 t d fr idx role um mv => ?_⟩
  · unfold generateImage makeGeminiRequest getApiKey
    simp [foldl_updatePart_eq, scanImage, updatePart]
  · unfold editImage makeGeminiRequest getApiKey
    simp [foldl_updatePart_eq, scanImage, updatePart]

/-- Claim C4: a response whose candidates array is absent or empty makes
both generateImage and editImage return exactly the failed result carrying
the fixed no-candidates message and the model, with no text, image or
finishReason set. -/
theorem c4_no_candidates_result (prompt imagePath model apiKey b64 : String)
    (hk : apiKey ≠ "") (resp : GeminiResponse)
    (hc : resp.candidates = none ∨ resp.candidates = some []) :
    generateImage prompt model (some apiKey) (fun _ _ _ => .ok resp) =
      { success := false, text := none, image := none, error := some noCandidatesMsg,
        model := model, finishReason := none } ∧
    editImage prompt imagePath model (some apiKey) (fun _ => .ok b64)
        (fun _ _ _ => .ok resp) =
      { success := false, text := none, image := none, error := some noCandidatesMsg,
        model := model, finishReason := none } := by
  rcases resp with ⟨cands, um, mv⟩
  rcases hc with h | h <;> simp only at h <;> subst h <;>
    exact ⟨by simp [generateImage, makeGeminiRequest, getApiKey, hk],
      by simp [editImage, makeGeminiRequest, getApiKey, hk]⟩

/-- Witness for C4 at a concrete input: an empty candidates list. -/
theorem c4_no_candidates_result_witness :
    generateImage "a cat" "gemini-2.0-flash-exp" (some "k")
        (fun _ _ _ => .ok ⟨some [], none, none⟩) =
      { success := false, text := none, image := none, error := some noCandidatesMsg,
        model := "gemini-2.0-flash-exp", finishReason := none } ∧
    editImage "add a hat" "cat.png" "gemini-2.0-flash-exp" (some "k") (fun _ => .ok "QUJD")
        (fun _ _ _ => .ok ⟨some [], none, none⟩) =
      { success := false, text := none, image := none, error := some noCandidatesMsg,
        model := "gemini-2.0-flash-exp", finishReason := none } :=
  c4_no_candidates_result "a cat" "cat.png" "gemini-2.0-flash-exp" "k" "QUJD"
    (by decide) ⟨some [], none, none⟩ (Or.inr rfl)

/-- Claim C6, counterexample to the construction-time part: the missing
API key is not a construction-time condition of any client object; each
individual call runs and returns its own per-call failed
ImageGenerationResult (the server has no construction step that fails, and
here two independent calls each surface the error as a normal per-call
result). -/
theorem c6_counterexample_missing_key_is_per_call :
    (generateImage "a red balloon" GEMINI_MODELS_FLASH none
        (fun _ _ _ => .ok ⟨some [], none, none⟩)).success = false ∧
    (generateImage "a red balloon" GEMINI_MODELS_FLASH none
        (fun _ _ _ => .ok ⟨some [], none, none⟩)).error =
      some ("Error: " ++ apiKeyRequiredMsg) ∧
    (editImage "add a hat" "cat.png" GEMINI_MODELS_FLASH none (fun _ => .ok "QUJD")
        (fun _ _ _ => .ok ⟨some [], none, none⟩)).error =
      some ("Error: " ++ apiKeyRequiredMsg) :=
  ⟨rfl, rfl, rfl⟩

/-- Claim C6 as amended: when no API key is configured, every call fails
before any network activity (the result does not depend on the network
oracle at all) with a configuration-error message naming GEMINI_API_KEY;
the absence is detected inside each call of the transport function, not at
a client construction step. -/
theorem c6_missing_key_fails_before_network (prompt imagePath model b64 : String)
    (req : GeminiRequest) (net net' : Net) (fs : String → Except String String) :
    makeGeminiRequest model req none net = .error (.jsError apiKeyRequiredMsg) ∧
    generateImage prompt model none net =
      { success := false, text := none, image := none,
        error := some ("Error: " ++ apiKeyRequiredMsg), model := model,
        finishReason := none } ∧
    generateImage prompt model none net = generateImage prompt model none net' ∧
    editImage prompt imagePath model none (fun _ => .ok b64) net =
      { success := false, text := none, image := none,
        error := some ("Error: " ++ apiKeyRequiredMsg), model := model,
        finishReason := none } ∧
    editImage prompt imagePath model none fs net =
      editImage prompt imagePath model none fs net' ∧
    "GEMINI_API_KEY".data.isPrefixOf apiKeyRequiredMsg.data = true := by
  refine ⟨rfl, rfl, rfl, rfl, ?_, by decide⟩
  unfold editImage
  rcases fs imagePath with msg | b64h <;> rfl

/-- Under the tagged-union discipline of src/types.ts, the parts whose
inlineData branch fires in the scan are exactly the inline-data parts. -/
theorem filterMap_scanImage_of_wf (parts : List GeminiPart)
    (hwf : ∀ p ∈ parts, WFPart p) :
    parts.filterMap scanImage = parts.filterMap GeminiPart.inlineData := by
  refine List.filterMap_congr (fun p hp => ?_)
  rcases p with ⟨pt, pd⟩
  rcases hwf _ hp with ⟨ht, hd⟩ | ⟨ht, hd⟩
  · simp only at hd
    subst hd
    cases pt <;> simp_all [scanImage]
  · simp only at ht
    subst ht
    simp [scanImage]

/-- Claim C2: when the first candidate contains at least one inline-data
part (under the tagged-union discipline of the data model), both
generateImage and editImage return success true, image equal to the
mimeType and data of the last inline-data part in part order, text equal
to the last text part if any, and finishReason equal to the candidate
finishReason. -/
theorem c2_last_inline_part_wins (prompt imagePath model apiKey b64 fr : String)
    (hk : apiKey ≠ "") (role : Option String) (parts : List GeminiPart) (idx : Nat)
    (rest : List GeminiCandidate) (um : Option UsageMetadata) (mv : Option String)
    (d : GeminiInlineData)
    (hwf : ∀ p ∈ parts, WFPart p)
    (hd : (parts.filterMap GeminiPart.inlineData).getLast? = some d) :
    generateImage prompt model (some apiKey)
        (fun _ _ _ => .ok ⟨some (⟨⟨role, parts⟩, fr, idx⟩ :: rest), um, mv⟩) =
      { success := true, text := (parts.filterMap GeminiPart.text).getLast?,
        image := some (imageOfInline d), error := none, model := model,
        finishReason := some fr } ∧
    editImage prompt imagePath model (some apiKey) (fun _ => .ok b64)
        (fun _ _ _ => .ok ⟨some (⟨⟨role, parts⟩, fr, idx⟩ :: rest), um, mv⟩) =
      { success := true, text := (parts.filterMap GeminiPart.text).getLast?,
        image := some (imageOfInline d), error := none, model := model,
        finishReason := some fr } := by
  constructor
  · simp [generateImage, makeGeminiRequest, getApiKey, hk, foldl_updatePart_eq,
      filterMap_scanImage_of_wf parts hwf, hd, Option.or_none,
      -List.filterMap_getLast?]
  · simp [editImage, makeGeminiRequest, getApiKey, hk, foldl_updatePart_eq,
      filterMap_scanImage_of_wf parts hwf, hd, Option.or_none,
      -List.filterMap_getLast?]

/-- Witness for C2 at a concrete input: a candidate holding a text part
and two inline-data parts; the second inline-data part wins. -/
theorem c2_last_inline_part_wins_witness :
    generateImage "a red balloon" "gemini-2.0-flash-exp" (some "k")
        (fun _ _ _ => .ok ⟨some [⟨⟨some "model",
          [⟨some "Here is your balloon", none⟩,
           ⟨none, some ⟨"image/png", "AAAA"⟩⟩,
           ⟨none, some ⟨"image/webp", "BBBB"⟩⟩]⟩, "STOP", 0⟩], none, none⟩) =
      { success := true, text := some "Here is your balloon",
        image := some ⟨"image/webp", "BBBB"⟩, error := none,
        model := "gemini-2.0-flash-exp", finishReason := some "STOP" } := by
  have h := c2_last_inline_part_wins "a red balloon" "cat.png" "gemini-2.0-flash-exp"
    "k" "QUJD" "STOP" (by decide) (some "model")
    [⟨some "Here is your balloon", none⟩,
     ⟨none, some ⟨"image/png", "AAAA"⟩⟩,
     ⟨none, some ⟨"image/webp", "BBBB"⟩⟩] 0 [] none none
    ⟨"image/webp", "BBBB"⟩ (by decide) (by decide)
  exact h.1

/-- Claim C3: when the first candidate contains no inline-data part, both
functions fail with text equal to the last text part and the
kind-specific no-image message, and apart from that message the two call
kinds behave identically on every response at this layer. -/
theorem c3_no_inline_part_failure (prompt imagePath model apiKey b64 fr : String)
    (hk : apiKey ≠ "") (role : Option String) (parts : List GeminiPart) (idx : Nat)
    (rest : List GeminiCandidate) (um : Option UsageMetadata) (mv : Option String)
    (hni : ∀ p ∈ parts, p.inlineData = none) :
    generateImage prompt model (some apiKey)
        (fun _ _ _ => .ok ⟨some (⟨⟨role, parts⟩, fr, idx⟩ :: rest), um, mv⟩) =
      { success := false, text := (parts.filterMap GeminiPart.text).getLast?,
        image := none, error := some noImageGenerateMsg, model := model,
        finishReason := none } ∧
    editImage prompt imagePath model (some apiKey) (fun _ => .ok b64)
        (fun _ _ _ => .ok ⟨some (⟨⟨role, parts⟩, fr, idx⟩ :: rest), um, mv⟩) =
      { success := false, text := (parts.filterMap GeminiPart.text).getLast?,
        image := none, error := some noImageEditMsg, model := model,
        finishReason := none } ∧
    (∀ (resp : GeminiResponse),
      (generateImage prompt model (some apiKey) (fun _ _ _ => .ok resp)).success =
        (editImage prompt imagePath model (some apiKey) (fun _ => .ok b64)
          (fun _ _ _ => .ok resp)).success ∧
      (generateImage prompt model (some apiKey) (fun _ _ _ => .ok resp)).text =
        (editImage prompt imagePath model (some apiKey) (fun _ => .ok b64)
          (fun _ _ _ => .ok resp)).text ∧
      (generateImage prompt model (some apiKey) (fun _ _ _ => .ok resp)).image =
        (editImage prompt imagePath model (some apiKey) (fun _ => .ok b64)
          (fun _ _ _ => .ok resp)).image ∧
      (generateImage prompt model (some apiKey) (fun _ _ _ => .ok resp)).model =
        (editImage prompt imagePath model (some apiKey) (fun _ => .ok b64)
          (fun _ _ _ => .ok resp)).model ∧
      (generateImage prompt model (some apiKey) (fun _ _ _ => .ok resp)).finishReason =
        (editImage prompt imagePath model (some apiKey) (fun _ => .ok b64)
          (fun _ _ _ => .ok resp)).finishReason ∧
      ((generateImage prompt model (some apiKey) (fun _ _ _ => .ok resp)).error =
        (editImage prompt imagePath model (some apiKey) (fun _ => .ok b64)
          (fun _ _ _ => .ok resp)).error ∨
       ((generateImage prompt model (some apiKey) (fun _ _ _ => .ok resp)).error =
          some noImageGenerateMsg ∧
        (editImage prompt imagePath model (some apiKey) (fun _ => .ok b64)
          (fun _ _ _ => .ok resp)).error = some noImageEditMsg))) := by
  have hscan : parts.filterMap scanImage = [] := by
    rw [List.filterMap_eq_nil_iff]
    intro p hp
    rcases p with ⟨pt, pd⟩
    have := hni _ hp
    simp only at this
    subst this
    cases pt <;> simp [scanImage]
  refine ⟨?_, ?_, ?_⟩
  · simp [generateImage, makeGeminiRequest, getApiKey, hk, foldl_updatePart_eq,
      hscan, Option.or_none]
  · simp [editImage, makeGeminiRequest, getApiKey, hk, foldl_updatePart_eq,
      hscan, Option.or_none]
  · intro resp
    rcases resp with ⟨cands, um2, mv2⟩
    rcases cands with _ | cl
    · simp [generateImage, editImage, makeGeminiRequest, getApiKey, hk]
    rcases cl with _ | ⟨c, cs⟩
    · simp [generateImage, editImage, makeGeminiRequest, getApiKey, hk]
    simp only [generateImage, editImage, makeGeminiRequest, getApiKey, hk, if_neg hk,
      foldl_updatePart_eq]
    cases h : ((c.content.parts.filterMap scanImage).getLast?.map imageOfInline).or none with
    | none => simp [h, -List.filterMap_getLast?]
    | some img => simp [h, -List.filterMap_getLast?]

/-- Witness for C3 at a concrete input: a candidate holding only text
parts. -/
theorem c3_no_inline_part_failure_witness :
    generateImage "disallowed content" "gemini-2.0-flash-exp" (some "k")
        (fun _ _ _ => .ok ⟨some [⟨⟨some "model",
          [⟨some "I will not create that image.", none⟩]⟩, "STOP", 0⟩], none, none⟩) =
      { success := false, text := some "I will not create that image.",
        image := none, error := some noImageGenerateMsg,
        model := "gemini-2.0-flash-exp", finishReason := none } := by
  have h := c3_no_inline_part_failure "disallowed content" "cat.png"
    "gemini-2.0-flash-exp" "k" "QUJD" "STOP" (by decide) (some "model")
    [⟨some "I will not create that image.", none⟩] 0 [] none none (by decide)
  exact h.1

theorem string_ne_of_getElem? (s t : String) (i : Nat)
    (h : s.data[i]? ≠ t.data[i]?) : s ≠ t :=
  fun he => h (by rw [he])

theorem data_getElem?_append_left (a x : String) (i : Nat) (h : i < a.data.length) :
    (a ++ x).data[i]? = a.data[i]? := by
  rw [String.data_append]
  exact List.getElem?_append_left h

theorem handle_status_400 (m c : Option String) (e : String) :
    handleApiError (.axiosError (some ⟨400, m⟩) c e) =
      "Error: Invalid request. " ++ jsOr m "Check your prompt and parameters." := rfl

theorem handle_status_401 (m c : Option String) (e : String) :
    handleApiError (.axiosError (some ⟨401, m⟩) c e) =
      "Error: Invalid API key. Please check your GEMINI_API_KEY environment variable." := rfl

theorem handle_status_403 (m c : Option String) (e : String) :
    handleApiError (.axiosError (some ⟨403, m⟩) c e) =
      "Error: Access denied. " ++ jsOr m "Your API key may not have access to this model." := rfl

theorem handle_status_404 (m c : Option String) (e : String) :
    handleApiError (.axiosError (some ⟨404, m⟩) c e) =
      "Error: Model not found. Please check the model name." := rfl

theorem handle_status_429 (m c : Option String) (e : String) :
    handleApiError (.axiosError (some ⟨429, m⟩) c e) =
      "Error: Rate limit exceeded. Please wait before making more requests." := rfl

theorem handle_status_500 (m c : Option String) (e : String) :
    handleApiError (.axiosError (some ⟨500, m⟩) c e) =
      "Error: Gemini API server error. Please try again later." := rfl

theorem handle_status_503 (m c : Option String) (e : String) :
    handleApiError (.axiosError (some ⟨503, m⟩) c e) =
      "Error: Gemini API service unavailable. Please try again later." := rfl

/-- Claim C5: handleApiError is a total function (by construction every
branch yields a string), and for a failure carrying an HTTP response it
maps each status of the switch to its message: 400 and 403 prepend their
fixed prefix to the upstream message or a generic hint, 401, 404, 429,
500 and 503 yield fixed messages, and any other status yields the
template naming the status number; moreover no two distinct listed
statuses ever produce the same message, whatever the upstream message. -/
theorem c5_handleApiError_status_table :
    (∀ (m c : Option String) (e : String),
      handleApiError (.axiosError (some ⟨400, m⟩) c e) =
        "Error: Invalid request. " ++ jsOr m "Check your prompt and parameters." ∧
      handleApiError (.axiosError (some ⟨401, m⟩) c e) =
        "Error: Invalid API key. Please check your GEMINI_API_KEY environment variable." ∧
      handleApiError (.axiosError (some ⟨403, m⟩) c e) =
        "Error: Access denied. " ++ jsOr m "Your API key may not have access to this model." ∧
      handleApiError (.axiosError (some ⟨404, m⟩) c e) =
        "Error: Model not found. Please check the model name." ∧
      handleApiError (.axiosError (some ⟨429, m⟩) c e) =
        "Error: Rate limit exceeded. Please wait before making more requests." ∧
      handleApiError (.axiosError (some ⟨500, m⟩) c e) =
        "Error: Gemini API server error. Please try again later." ∧
      handleApiError (.axiosError (some ⟨503, m⟩) c e) =
        "Error: Gemini API service unavailable. Please try again later.") ∧
    (∀ (s : Nat) (m c : Option String) (e : String),
      s ∉ ([400, 401, 403, 404, 429, 500, 503] : List Nat) →
      handleApiError (.axiosError (some ⟨s, m⟩) c e) =
        "Error: API request failed with status " ++ toString s ++ ". " ++ jsOr m "") ∧
    (∀ (s1 s2 : Nat) (m c1 c2 : Option String) (e1 e2 : String),
      s1 ∈ ([400, 401, 403, 404, 429, 500, 503] : List Nat) →
      s2 ∈ ([400, 401, 403, 404, 429, 500, 503] : List Nat) →
      s1 ≠ s2 →
      handleApiError (.axiosError (some ⟨s1, m⟩) c1 e1) ≠
        handleApiError (.axiosError (some ⟨s2, m⟩) c2 e2)) := by
  refine ⟨fun m c e => ⟨rfl, rfl, rfl, rfl, rfl, rfl, rfl⟩, ?_, ?_⟩
  · intro s m c e hs
    unfold handleApiError
    dsimp only
    split
    all_goals first
    | exact (hs (by decide)).elim
    | rfl
  · intro s1 s2 m c1 c2 e1 e2 h1 h2 hne
    fin_cases h1 <;> fin_cases h2 <;>
      simp only [handle_status_400, handle_status_401, handle_status_403,
        handle_status_404, handle_status_429, handle_status_500, handle_status_503] <;>
      first
      | exact absurd rfl hne
      | exact string_ne_of_getElem? _ _ 7 (by
          repeat rw [data_getElem?_append_left _ _ _ (by decide)]
          decide)
      | exact string_ne_of_getElem? _ _ 15 (by
          repeat rw [data_getElem?_append_left _ _ _ (by decide)]
          decide)
      | exact string_ne_of_getElem? _ _ 22 (by
          repeat rw [data_getElem?_append_left _ _ _ (by decide)]
          decide)

/-- Witness for C5 at concrete inputs: two fixed-message statuses give
different strings, and an unlisted status (418) gets the template. -/
theorem c5_handleApiError_status_table_witness :
    handleApiError (.axiosError (some ⟨404, none⟩) none "m") ≠
      handleApiError (.axiosError (some ⟨429, none⟩) none "m") ∧
    handleApiError (.axiosError (some ⟨418, some "teapot"⟩) none "m") =
      "Error: API request failed with status " ++ toString (418 : Nat) ++ ". " ++
        jsOr (some "teapot") "" :=
  ⟨c5_handleApiError_status_table.2.2 404 429 none none none "m" "m"
      (by decide) (by decide) (by decide),
   c5_handleApiError_status_table.2.1 418 (some "teapot") none "m" (by decide)⟩

/-- Claim C7 (code evaluation): the editImage exported by
src/services/gemini-client.ts has the three-parameter path-based
interface, not the four-parameter bytes-plus-MIME interface the tool
handler invokes it with.  The discriminating network oracle only answers
the image-bearing response to the exact request whose inline part carries
the base64 file contents read from the path and the MIME type derived
from the path extension (.JPG gives image/jpeg); the call succeeds, which
shows no caller-supplied MIME type or byte string is involved. -/
theorem c7_editImage_is_path_based :
    editImage "edit it" "/tmp/cat.JPG" "m" (some "k") (fun _ => .ok "QUJD")
        (discriminatingNet (buildEditRequest "edit it" "image/jpeg" "QUJD")
          ⟨some [⟨⟨some "model", [⟨none, some ⟨"image/png", "RESULT"⟩⟩]⟩, "STOP", 0⟩],
            none, none⟩
          ⟨some [], none, none⟩) =
      { success := true, text := none, image := some ⟨"image/png", "RESULT"⟩,
        error := none, model := "m", finishReason := some "STOP" } := by
  decide

/-- Claim C8 (code evaluation): GenerateImageSchema and EditImageSchema
declare output_path as a required key (z.string().min(1) without
.optional() under .strict()), so a tool call omitting output_path is
rejected by validation before the handler runs, although the tool
descriptions and the README document the parameter as optional and the
handlers carry an inline-base64 branch for the omitted case. -/
theorem c8_output_path_required_by_schema :
    parseGenerateImageInput ⟨some "a cat", none, none, []⟩ = .error "Required" ∧
    parseEditImageInput ⟨some "add a hat", some "cat.png", none, none, []⟩ =
      .error "Required" := by
  constructor <;> rfl

/-- Claim C9: the extension-to-MIME mapping of getMimeTypeFromPath is
total (every path yields one of the four image MIME types) and
case-insensitive on the extension computed by extname: .png yields
image/png, .jpg and .jpeg yield image/jpeg, .webp yields image/webp,
.gif yields image/gif, and every other extension, including a missing
one, yields image/png. -/
theorem c9_extension_mime_mapping (p : String) :
    (getMimeTypeFromPath p = "image/png" ∨ getMimeTypeFromPath p = "image/jpeg" ∨
      getMimeTypeFromPath p = "image/webp" ∨ getMimeTypeFromPath p = "image/gif") ∧
    (jsToLower (extname p) = ".png" → getMimeTypeFromPath p = "image/png") ∧
    (jsToLower (extname p) = ".jpg" → getMimeTypeFromPath p = "image/jpeg") ∧
    (jsToLower (extname p) = ".jpeg" → getMimeTypeFromPath p = "image/jpeg") ∧
    (jsToLower (extname p) = ".webp" → getMimeTypeFromPath p = "image/webp") ∧
    (jsToLower (extname p) = ".gif" → getMimeTypeFromPath p = "image/gif") ∧
    (jsToLower (extname p) ∉
        ([".png", ".jpg", ".jpeg", ".webp", ".gif"] : List String) →
      getMimeTypeFromPath p = "image/png") := by
  unfold getMimeTypeFromPath
  dsimp only
  split_ifs with h1 h2 h3 h4 h5 <;> simp_all

/-- Witness for C9 at concrete inputs: upper-case and mixed-case
recognized extensions, an unrecognized extension, and a missing one. -/
theorem c9_extension_mime_mapping_witness :
    getMimeTypeFromPath "photo.PNG" = "image/png" ∧
    getMimeTypeFromPath "img.JpEg" = "image/jpeg" ∧
    getMimeTypeFromPath "anim.gif" = "image/gif" ∧
    getMimeTypeFromPath "art.webp" = "image/webp" ∧
    getMimeTypeFromPath "doc.tiff" = "image/png" ∧
    getMimeTypeFromPath "noextension" = "image/png" :=
  ⟨(c9_extension_mime_mapping "photo.PNG").2.1 (by decide),
   (c9_extension_mime_mapping "img.JpEg").2.2.2.1 (by decide),
   (c9_extension_mime_mapping "anim.gif").2.2.2.2.2.1 (by decide),
   (c9_extension_mime_mapping "art.webp").2.2.2.2.1 (by decide),
   (c9_extension_mime_mapping "doc.tiff").2.2.2.2.2.2 (by decide),
   (c9_extension_mime_mapping "noextension").2.2.2.2.2.2 (by decide)⟩

end NanoBanana
